import Mathlib

/- Verification development for the Lambda BSP30 map loader.
   Byte streams are modelled as lists of natural numbers below 256; machine
   integers are modelled as Nat/Int with explicit two's-complement
   conversions where sign or wrapping matters; fallible reads return
   Option, where none stands for a propagated read error or a panic. -/

namespace Lambda

/-- A sequential byte stream, as consumed by the reader primitives. -/
abbrev ByteStream := List Nat

/-- Read one byte, as reader.read_u8 does; fails on an exhausted stream. -/
def readU8 : ByteStream → Option (Nat × ByteStream)
  | [] => none
  | b :: rest => some (b, rest)

/-- Two's-complement reinterpretation of a w-bit unsigned value. -/
def toSigned (w n : Nat) : Int :=
  if n < 2 ^ (w - 1) then (n : Int) else (n : Int) - 2 ^ w

/-- Big-endian 16-bit unsigned read: read_u16 with byte order BigEndian,
    which is the byte order every Resource impl in bsp30.rs and wad.rs
    fixes as type T = BigEndian. -/
def readU16BE (s : ByteStream) : Option (Nat × ByteStream) := do
  let (b0, s) ← readU8 s
  let (b1, s) ← readU8 s
  some (b0 * 256 + b1, s)

/-- Big-endian 16-bit signed read, read_i16 with byte order BigEndian. -/
def readI16BE (s : ByteStream) : Option (Int × ByteStream) := do
  let (n, s) ← readU16BE s
  some (toSigned 16 n, s)

/-- Big-endian 32-bit unsigned read, read_u32 with byte order BigEndian. -/
def readU32BE (s : ByteStream) : Option (Nat × ByteStream) := do
  let (b0, s) ← readU8 s
  let (b1, s) ← readU8 s
  let (b2, s) ← readU8 s
  let (b3, s) ← readU8 s
  some (((b0 * 256 + b1) * 256 + b2) * 256 + b3, s)

/-- Big-endian 32-bit signed read, read_i32 with byte order BigEndian. -/
def readI32BE (s : ByteStream) : Option (Int × ByteStream) := do
  let (n, s) ← readU32BE s
  some (toSigned 32 n, s)

/-- Little-endian interpretation of four bytes as a signed 32-bit value,
    written from the specification sentence that fixed-point numeric types
    are little-endian: the least-significant byte appears first. -/
def little_endian_i32 (b0 b1 b2 b3 : Nat) : Int :=
  toSigned 32 (b0 + b1 * 256 + b2 * 65536 + b3 * 16777216)

/-- Lump descriptor record of bsp30.rs: an i32 offset and an i32 length. -/
structure Lump where
  offset : Int
  length : Int
deriving DecidableEq

/-- Lump::from_reader: two i32 reads using the byte order the impl fixes,
    type T = BigEndian. -/
def Lump.from_reader (s : ByteStream) : Option (Lump × ByteStream) := do
  let (offset, s) ← readI32BE s
  let (length, s) ← readI32BE s
  some ({ offset, length }, s)

/-- WAD header record of wad.rs: 4 magic bytes, n_dir and dir_offset. -/
structure WadHeader where
  magic : List Nat
  n_dir : Int
  dir_offset : Int
deriving DecidableEq

/-- WadHeader::from_reader: four u8 reads for the magic, then two i32 reads
    using the byte order the impl fixes, type T = BigEndian. -/
def WadHeader.from_reader (s : ByteStream) : Option (WadHeader × ByteStream) := do
  let (m0, s) ← readU8 s
  let (m1, s) ← readU8 s
  let (m2, s) ← readU8 s
  let (m3, s) ← readU8 s
  let (n_dir, s) ← readI32BE s
  let (dir_offset, s) ← readI32BE s
  some ({ magic := [m0, m1, m2, m3], n_dir, dir_offset }, s)

/-- Node record of bsp30.rs: u32 plane index, two i16 child indices, i16
    bounding box corners, u16 face range. -/
structure Node where
  plane_index : Nat
  child_index : Int × Int
  lower : Int × Int × Int
  upper : Int × Int × Int
  first_face : Nat
  last_face : Nat
deriving DecidableEq

/-- Node::from_reader: fields in declared order with byte order BigEndian,
    exactly as the impl fixes type T = BigEndian. -/
def Node.from_reader (s : ByteStream) : Option (Node × ByteStream) := do
  let (plane_index, s) ← readU32BE s
  let (c0, s) ← readI16BE s
  let (c1, s) ← readI16BE s
  let (l0, s) ← readI16BE s
  let (l1, s) ← readI16BE s
  let (l2, s) ← readI16BE s
  let (u0, s) ← readI16BE s
  let (u1, s) ← readI16BE s
  let (u2, s) ← readI16BE s
  let (first_face, s) ← readU16BE s
  let (last_face, s) ← readU16BE s
  some ({ plane_index, child_index := (c0, c1), lower := (l0, l1, l2),
          upper := (u0, u1, u2), first_face, last_face }, s)

/-- Leaf record of bsp30.rs: i32 content type, i32 visibility offset, i16
    bounding box corners, u16 mark-surface range, 4 ambient sound bytes. -/
structure Leaf where
  content : Int
  vis_offset : Int
  lower : Int × Int × Int
  upper : Int × Int × Int
  first_mark_surface : Nat
  mark_surface_count : Nat
  ambient_levels : List Nat
deriving DecidableEq

/-- 3-component vector; the f32 components are modelled as rationals, which
    is faithful for the claims below because point_in_box only compares
    components and the box corners come from exactly representable i16s. -/
structure Vec3 where
  x : ℚ
  y : ℚ
  z : ℚ
deriving DecidableEq

/-- mathutil::point_in_box, translated clause for clause: inclusive bounds
    in either corner orientation, no epsilon. -/
def point_in_box (point min max : Vec3) : Bool :=
  (decide (min.x ≤ point.x) && decide (point.x ≤ max.x)
    && decide (min.y ≤ point.y) && decide (point.y ≤ max.y)
    && decide (min.z ≤ point.z) && decide (point.z ≤ max.z))
  || (decide (min.x ≥ point.x) && decide (point.x ≥ max.x)
    && decide (min.y ≥ point.y) && decide (point.y ≥ max.y)
    && decide (min.z ≥ point.z) && decide (point.z ≥ max.z))

/-- Read n records sequentially, the loop body of the bsp_comp_init! macro
    in BSP::from_file; a failed record decode aborts the whole lump. -/
def read_n {α : Type} (rd : ByteStream → Option (α × ByteStream)) :
    Nat → ByteStream → Option (List α × ByteStream)
  | 0, s => some ([], s)
  | k + 1, s =>
    match rd s with
    | none => none
    | some (a, s1) =>
      match read_n rd k s1 with
      | none => none
      | some (l, s2) => some (a :: l, s2)

/-- The bsp_comp_init! step of BSP::from_file for the nodes lump: the record
    count is the lump byte length divided (with truncating integer division)
    by size_of::<bsp30::Node>() = 24, the reader seeks to the lump offset,
    and that many records are decoded; no divisibility check is performed
    on the length. -/
def bsp_lump_nodes (file : ByteStream) (offset length : Nat) :
    Option (List Node) :=
  (read_n Node.from_reader (length / 24) (file.drop offset)).map
    (fun p => p.1)

/-- Successful read_n always yields exactly the requested record count. -/
theorem read_n_length {α : Type} (rd : ByteStream → Option (α × ByteStream)) :
    ∀ (n : Nat) (s : ByteStream) (l : List α) (s2 : ByteStream),
      read_n rd n s = some (l, s2) → l.length = n := by
  intro n
  induction n with
  | zero =>
    intro s l s2 h
    simp only [read_n, Option.some.injEq, Prod.mk.injEq] at h
    simp [← h.1]
  | succ k ih =>
    intro s l s2 h
    rw [read_n] at h
    cases hrd : rd s with
    | none => rw [hrd] at h; exact absurd h (by simp)
    | some p =>
      obtain ⟨a, s1⟩ := p
      rw [hrd] at h
      dsimp only at h
      cases hrn : read_n rd k s1 with
      | none => rw [hrn] at h; exact absurd h (by simp)
      | some q =>
        obtain ⟨l1, s3⟩ := q
        rw [hrn] at h
        simp only [Option.some.injEq, Prod.mk.injEq] at h
        obtain ⟨hl, -⟩ := h
        rw [← hl]
        simp [ih s1 l1 s3 hrn]

/-- resource.rs read_char_array: reads up to the declared width, but stops
    as soon as it reads a zero byte (the zero is consumed and not stored);
    returns the filled fixed-size zero-padded array, the remaining stream
    and the count of stored bytes. none models the panic on a short read. -/
def read_char_array_go : Nat → ByteStream → Option (List Nat × ByteStream × Nat)
  | 0, s => some ([], s, 0)
  | k + 1, s =>
    match readU8 s with
    | none => none
    | some (0, s1) => some ([], s1, 0)
    | some (b, s1) =>
      (read_char_array_go k s1).map
        (fun r => (b :: r.1, r.2.1, r.2.2 + 1))

/-- read_char_array over a declared width n, including the zero padding of
    the preallocated buffer the stored bytes are written into. -/
def read_char_array (s : ByteStream) (n : Nat) :
    Option (List Nat × ByteStream × Nat) :=
  (read_char_array_go n s).map
    (fun r => (r.1 ++ List.replicate (n - r.1.length) 0, r.2.1, r.2.2))

/-- C1: the claim states that every multi-byte numeric field read by the
    record decoders is little-endian. The code fixes type T = BigEndian in
    every Resource impl, so the i32 bytes 30,0,0,0 (value 30 in the
    little-endian wire format) decode to 503316480 in Lump::from_reader,
    and the WAD header counts decode big-endian as well: the claim fails
    on the code. -/
theorem claim_C1_decoders_read_big_endian :
    Lump.from_reader [30, 0, 0, 0, 0, 0, 0, 0]
        = some ({ offset := 503316480, length := 0 }, [])
      ∧ little_endian_i32 30 0 0 0 = 30
      ∧ WadHeader.from_reader [87, 65, 68, 51, 2, 0, 0, 0, 12, 0, 0, 0]
        = some ({ magic := [87, 65, 68, 51], n_dir := 33554432,
                  dir_offset := 201326592 }, [])
      ∧ (503316480 : Int) ≠ 30 :=
  ⟨by decide, by decide, by decide, by decide⟩

/-- C4 counterexample: a nodes lump of byte length 25 is not a multiple of
    size_of::<bsp30::Node>() = 24, yet the load accepts it and silently
    decodes floor(25 / 24) = 1 record: the claim that such a lump is
    rejected with a format error fails on the code. -/
theorem claim_C4_counterexample :
    bsp_lump_nodes (List.replicate 25 0) 0 25
      = some [{ plane_index := 0, child_index := (0, 0), lower := (0, 0, 0),
                upper := (0, 0, 0), first_face := 0, last_face := 0 }]
    ∧ ¬(25 % 24 = 0) :=
  ⟨by decide, by decide⟩

/-- C4 as amended: BSP::from_file performs no divisibility check on lump
    lengths; it decodes exactly length / 24 node records (truncating
    division), ignoring any trailing remainder bytes, and a non-multiple
    length is accepted whenever those records decode. -/
theorem claim_C4_truncating_record_count (file : ByteStream)
    (offset length : Nat) (l : List Node)
    (h : bsp_lump_nodes file offset length = some l) :
    l.length = length / 24 := by
  unfold bsp_lump_nodes at h
  cases hr : read_n Node.from_reader (length / 24) (file.drop offset) with
  | none => rw [hr] at h; exact absurd h (by simp)
  | some p =>
    rw [hr] at h
    simp only [Option.map_some', Option.some.injEq] at h
    rw [← h]
    exact read_n_length Node.from_reader (length / 24) (file.drop offset)
      p.1 p.2 (by rw [hr])

/-- Witness for the amended C4: the accepted 25-byte lump decodes to exactly
    25 / 24 = 1 record. -/
theorem claim_C4_truncating_record_count_witness :
    ([{ plane_index := 0, child_index := (0, 0), lower := (0, 0, 0),
        upper := (0, 0, 0), first_face := 0, last_face := 0 }] :
      List Node).length = 25 / 24 :=
  claim_C4_truncating_record_count (List.replicate 25 0) 0 25
    [{ plane_index := 0, child_index := (0, 0), lower := (0, 0, 0),
       upper := (0, 0, 0), first_face := 0, last_face := 0 }] (by decide)

/-- C8: the claim says the fixed-width character-array reader consumes
    exactly the declared width N even when a null terminator occurs earlier.
    The code breaks out of its loop at the first zero byte (consuming it),
    so for declared width 16 and a stream whose third byte is zero, exactly
    3 bytes are consumed, not 16: the claim fails on the code. -/
theorem claim_C8_reader_stops_at_null :
    read_char_array (65 :: 66 :: 0 :: List.replicate 17 7) 16
      = some (65 :: 66 :: List.replicate 14 0, List.replicate 17 7, 2)
    ∧ (65 :: 66 :: 0 :: List.replicate 17 7 : ByteStream).length
        - (List.replicate 17 7 : ByteStream).length = 3
    ∧ (3 : Nat) ≠ 16 :=
  ⟨by decide, by decide, by decide⟩

/-- Bitwise NOT of an i16 value: two's-complement, equal to -x - 1. -/
def not_i16 (x : Int) : Int := -x - 1

/-- The `as usize` cast of a possibly negative integer: two's-complement
    wrap to 64 bits. -/
def usize_cast (x : Int) : Nat := (x % (2 : Int) ^ 64).toNat

/-- BSP::array_to_vec3: i16 box corners widened to vector components. -/
def array_to_vec3 (a : Int × Int × Int) : Vec3 :=
  { x := a.1, y := a.2.1, z := a.2.2 }

/-- Outcome of examining one child slot inside BSP::find_leaf. -/
inductive FindLeafStep where
  | panic : FindLeafStep
  | ret (leaf : Int) : FindLeafStep
  | recurse (node : Nat) : FindLeafStep
  | next : FindLeafStep

/-- The else-if branch of BSP::find_leaf for a child slot c: when
    (!child_index) != 0, the leaf at index `!child_index as usize` is box
    tested and returned on success; an out-of-range leaves index is a
    panic. -/
def find_leaf_leaf_branch (leaves : List Leaf) (pos : Vec3) (c : Int) :
    FindLeafStep :=
  if not_i16 c ≠ 0 then
    match leaves.get? (usize_cast (not_i16 c)) with
    | none => .panic
    | some lf =>
      if point_in_box pos (array_to_vec3 lf.lower) (array_to_vec3 lf.upper)
      then .ret (not_i16 c)
      else .next
  else .next

/-- One iteration of the for-loop in BSP::find_leaf over a child slot c,
    translated clause for clause: if child_index >= 0 and the child node's
    box contains the point, recurse into it; otherwise fall through to the
    else-if branch above. The else-if branch is reached even when c is a
    non-negative node index whose box merely failed the test, exactly as in
    the source. -/
def find_leaf_child (nodes : List Node) (leaves : List Leaf) (pos : Vec3)
    (c : Int) : FindLeafStep :=
  if 0 ≤ c then
    match nodes.get? c.toNat with
    | none => .panic
    | some cn =>
      if point_in_box pos (array_to_vec3 cn.lower) (array_to_vec3 cn.upper)
      then .recurse c.toNat
      else find_leaf_leaf_branch leaves pos c
  else find_leaf_leaf_branch leaves pos c

/-- BSP::find_leaf with explicit fuel for the recursion (the wire format
    gives no acyclicity guarantee). none models a panic or exhausted fuel,
    some none is the source returning None, some (some i) is Some(i). -/
def find_leaf (nodes : List Node) (leaves : List Leaf) (pos : Vec3)
    (node : Nat) : Nat → Option (Option Int)
  | 0 => none
  | fuel + 1 =>
    match nodes.get? node with
    | none => none
    | some nd =>
      match find_leaf_child nodes leaves pos nd.child_index.1 with
      | .panic => none
      | .ret r => some (some r)
      | .recurse n2 => find_leaf nodes leaves pos n2 fuel
      | .next =>
        match find_leaf_child nodes leaves pos nd.child_index.2 with
        | .panic => none
        | .ret r => some (some r)
        | .recurse n2 => find_leaf nodes leaves pos n2 fuel
        | .next => some none

/-- Decoded arrays for the C2 scenario: the root node 0 has a node child 1
    whose box does not contain the origin, and a leaf child encoded as -2
    (leaf 1) whose box does contain the origin. -/
def nodes_C2 : List Node :=
  [{ plane_index := 0, child_index := (1, -2), lower := (-100, -100, -100),
     upper := (100, 100, 100), first_face := 0, last_face := 0 },
   { plane_index := 0, child_index := (-1, -1), lower := (5, 5, 5),
     upper := (7, 7, 7), first_face := 0, last_face := 0 }]

/-- Leaves for the C2 scenario; leaf 1's box contains the origin. -/
def leaves_C2 : List Leaf :=
  [{ content := -1, vis_offset := -1, lower := (0, 0, 0), upper := (0, 0, 0),
     first_mark_surface := 0, mark_surface_count := 0,
     ambient_levels := [0, 0, 0, 0] },
   { content := -1, vis_offset := -1, lower := (-10, -10, -10),
     upper := (10, 10, 10), first_mark_surface := 0, mark_surface_count := 0,
     ambient_levels := [0, 0, 0, 0] }]

/-- The query point for the C2 scenario. -/
def origin_C2 : Vec3 := { x := 0, y := 0, z := 0 }

/-- C2: the claim says that a child encoding a leaf whose box contains p
    yields that decoded leaf index, so here find_leaf should return
    Some 1 (leaf 1's box contains the origin, node 1's box does not). The
    code instead reaches the else-if branch with the non-negative node
    index 1, computes !1 = -2, wraps it with `as usize` to the huge leaves
    index 2^64 - 2, and panics, for every fuel: the claim fails on the
    code. -/
theorem claim_C2_node_child_misread_as_leaf :
    point_in_box origin_C2 (array_to_vec3 (-10, -10, -10))
        (array_to_vec3 (10, 10, 10)) = true
    ∧ point_in_box origin_C2 (array_to_vec3 (5, 5, 5))
        (array_to_vec3 (7, 7, 7)) = false
    ∧ ∀ fuel : Nat, find_leaf nodes_C2 leaves_C2 origin_C2 0 fuel = none := by
  refine ⟨by decide, by decide, ?_⟩
  intro fuel
  cases fuel with
  | zero => rfl
  | succ n => rfl

/-- The inner for-loop of BSP::decompress_vis: it runs up to count times,
    each time inserting bit 0 (the literal 0x00 is used as the bit index)
    into the set, breaking early once pvs.len() / 8 reaches the row
    target. -/
def inner_vis_loop (row : Nat) (pvs : Finset ℕ) : Nat → Finset ℕ
  | 0 => pvs
  | k + 1 =>
    let p := insert 0 pvs
    if row ≤ p.card / 8 then p else inner_vis_loop row p k

/-- The while-loop of BSP::decompress_vis with fuel; none is divergence.
    Translated clause for clause: the body never reads a byte of the
    compressed stream — a past-the-end read position inserts bit 0, an
    in-range position advances read and inserts bit 0 read times — and the
    loop continues while pvs.len() / 8 is below the row target. -/
def decompress_vis_loop (row comp_len : Nat) :
    Finset ℕ → Nat → Nat → Option (Finset ℕ)
  | _, _, 0 => none
  | pvs, read, fuel + 1 =>
    if pvs.card / 8 < row then
      if comp_len < read then
        decompress_vis_loop row comp_len (insert 0 pvs) (read + 1) fuel
      else
        decompress_vis_loop row comp_len
          (inner_vis_loop row pvs (read + 1)) (read + 2) fuel
    else some pvs

/-- BSP::decompress_vis: start reading at the leaf's stored vis_offset
    (cast as usize), with the row target computed from the CURRENT
    vis_lists length — not the leaf count — and run the loop; BitSet is
    modelled as the finite set of set bit indices (reserve_len has no
    observable effect). -/
def decompress_vis (leaves : List Leaf) (vis_lists_len : Nat) (leaf : Nat)
    (compressed : List Nat) (fuel : Nat) : Option (Finset ℕ) :=
  match leaves.get? leaf with
  | none => none
  | some lf =>
    decompress_vis_loop ((vis_lists_len + 7) / 8) compressed.length ∅
      (usize_cast lf.vis_offset) fuel

/-- Every set the inner loop produces from a subset of the singleton 0 is
    still a subset of the singleton 0: only bit 0 is ever inserted. -/
theorem inner_vis_loop_subset (row : Nat) :
    ∀ (k : Nat) (pvs : Finset ℕ), pvs ⊆ {0} →
      inner_vis_loop row pvs k ⊆ {0} := by
  intro k
  induction k with
  | zero => intro pvs h; exact h
  | succ n ih =>
    intro pvs h
    have hi : insert 0 pvs ⊆ {0} :=
      Finset.insert_subset_iff.mpr ⟨Finset.mem_singleton_self 0, h⟩
    show (if row ≤ (insert 0 pvs).card / 8 then insert 0 pvs
      else inner_vis_loop row (insert 0 pvs) n) ⊆ {0}
    split
    · exact hi
    · exact ih _ hi

/-- With a positive row target the decompression loop never terminates:
    the set never holds more than the single bit 0, so its length stays
    below 8 and the loop guard never turns false. -/
theorem decompress_vis_loop_diverges (row comp_len : Nat) (hrow : 0 < row) :
    ∀ (fuel : Nat) (pvs : Finset ℕ) (read : Nat), pvs ⊆ {0} →
      decompress_vis_loop row comp_len pvs read fuel = none := by
  intro fuel
  induction fuel with
  | zero => intro pvs read _; rfl
  | succ n ih =>
    intro pvs read h
    rw [decompress_vis_loop]
    have hcard : pvs.card ≤ 1 := by
      simpa using Finset.card_le_card h
    have hdiv : pvs.card / 8 = 0 := Nat.div_eq_of_lt (by omega)
    rw [hdiv, if_pos hrow]
    split
    · exact ih _ _
        (Finset.insert_subset_iff.mpr ⟨Finset.mem_singleton_self 0, h⟩)
    · exact ih _ _ (inner_vis_loop_subset row _ _ h)

/-- Leaves for the C6 scenario: one leaf whose vis_offset is 0. -/
def leaves_C6 : List Leaf :=
  [{ content := -1, vis_offset := 0, lower := (0, 0, 0), upper := (0, 0, 0),
     first_mark_surface := 0, mark_surface_count := 0,
     ambient_levels := [0, 0, 0, 0] }]

/-- C6: the claim says decompress_vis run-length decodes the compressed
    bytes from the leaf's vis_offset into a bitset covering
    (total_leaf_count + 7) / 8 bytes, so for the literal bitmask byte 255
    the first eight leaves would be marked visible. The code never reads a
    compressed byte: invoked as from_file does (vis_lists still empty, so
    the row target is 0) it returns an empty bitset for every fuel, and
    with any positive row target (vis_lists length 8 here) it loops
    forever: the claim fails on the code. -/
theorem claim_C6_decompress_vis_never_reads :
    (∀ fuel : Nat, decompress_vis leaves_C6 0 0 [255] (fuel + 1) = some ∅)
    ∧ (∀ fuel : Nat, decompress_vis leaves_C6 8 0 [255] fuel = none) := by
  constructor
  · intro fuel
    rfl
  · intro fuel
    show decompress_vis_loop ((8 + 7) / 8) 1 ∅ (usize_cast 0) fuel = none
    exact decompress_vis_loop_diverges ((8 + 7) / 8) 1 (by norm_num) fuel ∅
      (usize_cast 0) (Finset.empty_subset _)

/-- MipTex record of bsp30.rs: 16-byte name, width, height, and the four
    mip level offsets. -/
structure MipTex where
  name : List Nat
  width : Nat
  height : Nat
  offsets : List Nat
deriving DecidableEq

/-- MipTex::from_reader: the 16-byte name via read_char_array (an error
    when no name bytes were stored), then width, height and the four mip
    offsets as u32 reads with the byte order the impl fixes,
    type T = BigEndian. Note read_char_array stops consuming at the first
    zero byte, so a short name leaves the following reads misaligned. -/
def MipTex.from_reader (s : ByteStream) : Option (MipTex × ByteStream) := do
  let (name, s, count) ← read_char_array s 16
  if count = 0 then none
  else
    let (width, s) ← readU32BE s
    let (height, s) ← readU32BE s
    let (o0, s) ← readU32BE s
    let (o1, s) ← readU32BE s
    let (o2, s) ← readU32BE s
    let (o3, s) ← readU32BE s
    some ({ name, width, height, offsets := [o0, o1, o2, o3] }, s)

/-- Image record of resource/image.rs: channel count, dimensions, and the
    raw data bytes. -/
structure Image where
  channels : Nat
  width : Nat
  height : Nat
  data : List Nat
deriving DecidableEq

/-- In-range list update; none models the Rust panic on an out-of-bounds
    index write. -/
def list_set : List Nat → Nat → Nat → Option (List Nat)
  | [], _, _ => none
  | _ :: rest, 0, v => some (v :: rest)
  | a :: rest, k + 1, v => (list_set rest k v).map (fun r => a :: r)

/-- The first pass of wad.rs apply_alpha_sections: for every pixel index i
    below width * height it writes 255 at position i * 4 + 2 of
    p_rgb_texture, a buffer created by Vec::with_capacity and therefore of
    length zero, so the pass panics as soon as there is at least one
    pixel. The iteration order is immaterial to that failure, so the
    indices are visited downward here. -/
def write_blue_run (buf : List Nat) : Nat → Option (List Nat)
  | 0 => some buf
  | k + 1 =>
    match list_set buf (k * 4 + 2) 255 with
    | none => none
    | some b => write_blue_run b k

/-- wad.rs apply_alpha_sections. The first pass writes into the
    zero-length p_rgb_texture buffer, panicking whenever width * height is
    positive; when width * height = 0 the key-pixel scan and the copy-back
    pass iterate over zero rows and columns, so the image is returned
    unchanged. -/
def apply_alpha_sections (img : Image) : Option Image :=
  match write_blue_run [] (img.width * img.height) with
  | none => none
  | some _ => some img

/-- The per-texel RGBA assembly of Wad::create_mip_texture at one mip
    level: texel i takes its three colour bytes from raw_texture at
    palette_offset + (pixel_index + i) * 3 onward and alpha 255, where an
    out-of-range raw_texture index is a panic. Note (pixel_index + i) is
    the texel's position in the stream, not the stored pixel byte. -/
def level_data (raw : List Nat) (palette_offset pixel_index : Nat) :
    Nat → Nat → Option (List Nat)
  | _, 0 => some []
  | i, k + 1 => do
    let r ← raw.get? (palette_offset + (pixel_index + i) * 3)
    let g ← raw.get? (palette_offset + (pixel_index + i) * 3 + 1)
    let b ← raw.get? (palette_offset + (pixel_index + i) * 3 + 2)
    let rest ← level_data raw palette_offset pixel_index (i + 1) k
    some (r :: g :: b :: 255 :: rest)

/-- The mip-level loop of Wad::create_mip_texture: each level builds a
    4-channel image over the current width and height from the texel
    assembly above, runs apply_alpha_sections on it, then halves the
    width and the height. -/
def create_mip_texture_levels (raw : List Nat) (offsets : List Nat)
    (palette_offset : Nat) : Nat → Nat → List Nat → Option (List Image)
  | _, _, [] => some []
  | w, h, level :: rest => do
    let data ← level_data raw palette_offset (offsets.getD level 0) 0 (h * w)
    let img ← apply_alpha_sections
      { channels := 4, width := w, height := h, data }
    let imgs ← create_mip_texture_levels raw offsets palette_offset
      (w / 2) (h / 2) rest
    some (img :: imgs)

/-- Wad::create_mip_texture: parse the MipTex header from the raw bytes,
    compute palette_offset = offsets[3] + (width / 8) * (height / 8) + 2,
    and decode the four mip levels. -/
def create_mip_texture (raw : List Nat) : Option (List Image) := do
  let (mt, _) ← MipTex.from_reader raw
  create_mip_texture_levels raw mt.offsets
    (mt.offsets.getD 3 0 + (mt.width / 8) * (mt.height / 8) + 2)
    mt.width mt.height [0, 1, 2, 3]

/-- The raw mip texture of the C3 scenario: a 2x2 texture whose header
    fields are encoded big-endian so that the decoder reads the intended
    values, whose four level-0 pixel bytes are all palette index 0, and
    whose 256-entry palette starts at byte 48 with entry 0 = (10, 20, 30)
    and zeroes elsewhere. -/
def raw_tex_C3 : List Nat :=
  List.replicate 16 65
    ++ [0, 0, 0, 2] ++ [0, 0, 0, 2]
    ++ [0, 0, 0, 40] ++ [0, 0, 0, 44] ++ [0, 0, 0, 45] ++ [0, 0, 0, 46]
    ++ [0, 0, 0, 0] ++ [0] ++ [0] ++ [0, 0]
    ++ [10, 20, 30] ++ List.replicate 765 0

/-- C3: the claim says each texel's RGB comes from the palette entry
    selected by the texel's pixel byte, so the all-index-0 2x2 texture with
    palette entry 0 = (10, 20, 30) should decode to four (10, 20, 30, 255)
    texels at mip level 0. The code instead computes the palette index from
    the texel's position — palette_offset + (pixel_index + i) * 3 — never
    reading the stored pixel byte, which here selects the all-zero palette
    entries 40..43 and yields (0, 0, 0, 255); moreover the whole call
    panics in apply_alpha_sections, which writes through a zero-length
    buffer for any level with at least one pixel: the claim fails on the
    code. -/
theorem claim_C3_palette_index_is_position :
    (MipTex.from_reader raw_tex_C3).map (fun p => p.1)
      = some { name := List.replicate 16 65, width := 2, height := 2,
               offsets := [40, 44, 45, 46] }
    ∧ raw_tex_C3.get? 48 = some 10
    ∧ raw_tex_C3.get? 49 = some 20
    ∧ raw_tex_C3.get? 50 = some 30
    ∧ raw_tex_C3.get? 40 = some 0
    ∧ level_data raw_tex_C3 48 40 0 4
      = some [0, 0, 0, 255, 0, 0, 0, 255, 0, 0, 0, 255, 0, 0, 0, 255]
    ∧ create_mip_texture raw_tex_C3 = none
    ∧ ([0, 0, 0, 255] : List Nat) ≠ [10, 20, 30, 255] :=
  ⟨by decide, by decide, by decide, by decide, by decide, by decide,
    by decide, by decide⟩

/-- WadDirEntry record of wad.rs. -/
structure WadDirEntry where
  n_file_pos : Int
  n_disk_size : Int
  n_size : Nat
  type_tag : Nat
  compressed : Bool
  n_dummy : Int
  name : List Nat
deriving DecidableEq

/-- The key under which Wad::load_directory indexes an entry:
    String::from_utf8_lossy over the FULL fixed-width name array, NUL
    padding included and with no case folding; bytes are modelled in the
    ASCII range as the corresponding characters. -/
def dir_key (name : List Nat) : List Char := name.map Char.ofNat

/-- HashMap::insert modelled on an association list: a new binding shadows
    any previous binding of the same key. -/
def hm_insert (m : List (List Char × WadDirEntry)) (k : List Char)
    (v : WadDirEntry) : List (List Char × WadDirEntry) :=
  (k, v) :: m.filter (fun p => decide (p.1 ≠ k))

/-- HashMap::get on the association-list model. -/
def hm_get (m : List (List Char × WadDirEntry)) (k : List Char) :
    Option WadDirEntry :=
  (m.find? (fun p => decide (p.1 = k))).map (fun p => p.2)

/-- Wad::load_directory: fold the decoded directory entries into the map,
    keyed by dir_key (no uppercasing anywhere). -/
def load_directory (entries : List WadDirEntry) :
    List (List Char × WadDirEntry) :=
  entries.foldl (fun m e => hm_insert m (dir_key e.name) e) []

/-- Wad::get_texture: a missing entry yields Vec::with_capacity(0), which
    is empty; a compressed entry panics (error); a found entry seeks to
    n_file_pos and calls read_exact on the slice view of
    Vec::with_capacity(n_size) — a slice of length zero — so nothing is
    read and the returned buffer is empty as well. -/
def get_texture (dir : List (List Char × WadDirEntry)) (name : List Char) :
    Except Unit (List Nat) :=
  match hm_get dir name with
  | some entry => if entry.compressed then .error () else .ok []
  | none => .ok []

/-- Wad::load_texture: fetch the raw texture bytes; empty bytes yield
    None, otherwise the mip texture is decoded. -/
def load_texture (dir : List (List Char × WadDirEntry)) (name : List Char) :
    Except Unit (Option (List Image)) :=
  match get_texture dir name with
  | .error e => .error e
  | .ok raw =>
    if raw.isEmpty then .ok none
    else
      match create_mip_texture raw with
      | none => .error ()
      | some t => .ok (some t)

/-- Does a load_texture outcome carry a texture? -/
def load_texture_got_some : Except Unit (Option (List Image)) → Bool
  | .ok (some _) => true
  | _ => false

/-- C7: the claim says WAD lookup is case-insensitive — keyed by uppercased
    names — and that load_texture succeeds for a stored entry, e.g. "FOO"
    queried as "foo". The code uppercases nothing (entries are keyed by the
    raw 16-byte name, NUL padding included, so even the exact-case query
    "FOO" misses), and get_texture reads into the zero-length slice of
    Vec::with_capacity, so the fetched bytes are always empty and
    load_texture returns None — or panics on a compressed entry — for
    every directory and every query: the claim fails on the code. -/
theorem claim_C7_load_texture_never_succeeds
    (dir : List (List Char × WadDirEntry)) (name : List Char) :
    load_texture_got_some (load_texture dir name) = false := by
  rcases h : hm_get dir name with _ | e
  · simp [load_texture, get_texture, load_texture_got_some, h]
  · rcases hc : e.compressed
    · simp [load_texture, get_texture, load_texture_got_some, h, hc]
    · simp [load_texture, get_texture, load_texture_got_some, h, hc]

/-- The double-quote character. -/
def quote_char : Char := Char.ofNat 34

/-- The opening brace character. -/
def brace_open : Char := Char.ofNat 123

/-- The closing brace character. -/
def brace_close : Char := Char.ofNat 125

/-- str::find for a single needle character, paired with the split it
    induces: the text before the first occurrence of c and the text after
    it, or none when c does not occur. -/
def split_at_char (c : Char) : List Char → Option (List Char × List Char)
  | [] => none
  | a :: rest =>
    if a = c then some ([], rest)
    else (split_at_char c rest).map (fun p => (a :: p.1, p.2))

/-- The suffix a successful split leaves behind is strictly shorter. -/
theorem split_at_char_length (c : Char) :
    ∀ (s pre post : List Char), split_at_char c s = some (pre, post) →
      post.length < s.length := by
  intro s
  induction s with
  | nil => intro pre post h; exact absurd h (by simp [split_at_char])
  | cons a rest ih =>
    intro pre post h
    rw [split_at_char] at h
    by_cases hac : a = c
    · rw [if_pos hac] at h
      simp only [Option.some.injEq, Prod.mk.injEq] at h
      rw [← h.2]
      simp
    · rw [if_neg hac] at h
      cases hs : split_at_char c rest with
      | none => rw [hs] at h; exact absurd h (by simp)
      | some p =>
        rw [hs] at h
        simp only [Option.map_some', Option.some.injEq, Prod.mk.injEq] at h
        rw [← h.2]
        exact Nat.lt_succ_of_lt (ih p.1 p.2 (by rw [hs]))

/-- The key/value scanner loop of Entity::new, with fuel: locate four
    quote characters, take the text between the first and second as the
    key and between the third and fourth as the value, and repeat. A
    missing opening quote ends the loop normally; a missing later quote is
    an unwrap panic (none). The source's early pos > len check can only
    break when the opening-quote search would also fail, so it adds
    nothing observable. -/
def entity_pairs_go : Nat → List Char → Option (List (List Char × List Char))
  | 0, _ => none
  | fuel + 1, s =>
    match split_at_char quote_char s with
    | none => some []
    | some (_, s1) =>
      match split_at_char quote_char s1 with
      | none => none
      | some (name, s2) =>
        match split_at_char quote_char s2 with
        | none => none
        | some (_, s3) =>
          match split_at_char quote_char s3 with
          | none => none
          | some (value, s4) =>
            match entity_pairs_go fuel s4 with
            | none => none
            | some ps => some ((name, value) :: ps)

/-- Entity::new's scanner on a whole property string; each loop iteration
    consumes at least four characters, so length + 1 rounds of fuel are
    always enough. -/
def entity_pairs (s : List Char) : Option (List (List Char × List Char)) :=
  entity_pairs_go (s.length + 1) s

/-- HashMap modelled extensionally: insert shadows earlier bindings. -/
def prop_insert (m : List Char → Option (List Char)) (k v : List Char) :
    List Char → Option (List Char) :=
  fun q => if q = k then some v else m q

/-- Entity::new: scan the property string and insert each key/value pair,
    in order, into an initially empty map; none models the scanner's
    panics. -/
def entity_new (s : List Char) :
    Option (List Char → Option (List Char)) :=
  (entity_pairs s).map
    (fun ps => ps.foldl (fun m p => prop_insert m p.1 p.2) (fun _ => none))

/-- Entity::find_property. -/
def find_property (m : List Char → Option (List Char)) (k : List Char) :
    Option (List Char) :=
  m k

/-- The value of the last occurrence of key k in a pair list. -/
def last_value :
    List (List Char × List Char) → List Char → Option (List Char)
  | [], _ => none
  | p :: ps, k =>
    match last_value ps k with
    | some v => some v
    | none => if k = p.1 then some p.2 else none

/-- Folding insertions over a map looks up to the last binding of a key,
    falling back to the initial map. -/
theorem foldl_prop_insert (k : List Char) :
    ∀ (ps : List (List Char × List Char))
      (m : List Char → Option (List Char)),
      (ps.foldl (fun m p => prop_insert m p.1 p.2) m) k
        = match last_value ps k with
          | some v => some v
          | none => m k := by
  intro ps
  induction ps with
  | nil => intro m; rfl
  | cons p ps ih =>
    intro m
    rw [List.foldl_cons, ih, last_value]
    cases last_value ps k with
    | some v => rfl
    | none =>
      show prop_insert m p.1 p.2 k
        = match if k = p.1 then some p.2 else none with
          | some v => some v
          | none => m k
      rw [prop_insert]
      by_cases hk : k = p.1
      · rw [if_pos hk, if_pos hk]
      · rw [if_neg hk, if_neg hk]

/-- C10: when an entity's property block mentions a key more than once,
    Entity::new keeps only the value of the last occurrence
    (HashMap::insert overwrites the earlier binding), and find_property on
    that key returns that last value. -/
theorem claim_C10_last_duplicate_wins (s : List Char)
    (ps : List (List Char × List Char)) (k : List Char)
    (hp : entity_pairs s = some ps)
    (hdup : 2 ≤ (ps.filter (fun p => decide (p.1 = k))).length) :
    (entity_new s).map (fun m => find_property m k)
      = some (last_value ps k) := by
  rw [entity_new, hp]
  simp only [Option.map_some', find_property]
  rw [foldl_prop_insert]
  cases last_value ps k with
  | some v => rfl
  | none => rfl

/-- The C10 witness property string, "a" "1" "a" "2" with quoted keys and
    values: the key a occurs twice. -/
def dup_props_C10 : List Char :=
  [quote_char, 'a', quote_char, ' ', quote_char, '1', quote_char, ' ',
   quote_char, 'a', quote_char, ' ', quote_char, '2', quote_char]

/-- Witness for C10: on the duplicate-key block the parsed pairs are
    (a, 1) then (a, 2), the key a occurs twice, and find_property answers
    with the last value 2. -/
theorem claim_C10_last_duplicate_wins_witness :
    entity_pairs dup_props_C10 = some [([ 'a' ], [ '1' ]), ([ 'a' ], [ '2' ])]
    ∧ 2 ≤ (([([ 'a' ], [ '1' ]), ([ 'a' ], [ '2' ])] :
        List (List Char × List Char)).filter
          (fun p => decide (p.1 = [ 'a' ]))).length
    ∧ (entity_new dup_props_C10).map (fun m => find_property m [ 'a' ])
      = some (some [ '2' ]) :=
  ⟨by decide, by decide,
    (claim_C10_last_duplicate_wins dup_props_C10
      [([ 'a' ], [ '1' ]), ([ 'a' ], [ '2' ])] [ 'a' ]
      (by decide) (by decide)).trans (by decide)⟩

/-- The suffix of s starting at the first occurrence of c, modelling
    pos += find(c) in parse_entities (the position lands ON the found
    character); none is the loop's break when c does not occur. -/
def drop_until (c : Char) : List Char → Option (List Char)
  | [] => none
  | a :: rest => if a = c then some (a :: rest) else drop_until c rest

/-- The index of the first occurrence of c, modelling str::find. -/
def index_of (c : Char) : List Char → Option Nat
  | [] => none
  | a :: rest =>
    if a = c then some 0
    else (index_of c rest).map (fun n => n + 1)

/-- The loop of BSP::parse_entities with fuel. Each iteration advances pos
    to the next opening brace; when no closing brace follows, the source
    logs an error and continues WITHOUT advancing pos, so the loop
    re-enters in an identical state; otherwise the block interior — the
    source slices (pos + 1)..(pos + end - 1), dropping the character just
    before the closing brace, and panics when end < 2 — becomes an Entity
    and the scan resumes just after the closing brace. none models fuel
    exhaustion, the slice panic, or an Entity::new panic. -/
def parse_entities_go :
    Nat → List Char → List (List Char → Option (List Char)) →
      Option (List (List Char → Option (List Char)))
  | 0, _, _ => none
  | fuel + 1, s, acc =>
    match drop_until brace_open s with
    | none => some acc.reverse
    | some t =>
      match index_of brace_close t with
      | none => parse_entities_go fuel t acc
      | some e =>
        if e < 2 then none
        else
          match entity_new ((t.drop 1).take (e - 2)) with
          | none => none
          | some ent => parse_entities_go fuel (t.drop (e + 1)) (ent :: acc)

/-- BSP::parse_entities on a whole entity string. -/
def parse_entities (s : List Char) (fuel : Nat) :
    Option (List (List Char → Option (List Char))) :=
  parse_entities_go fuel s []

/-- On the single-character input consisting of one opening brace, the
    parse loop makes no progress: whatever the fuel and accumulator, it
    re-enters the same state until the fuel runs out. -/
theorem parse_entities_go_stuck :
    ∀ (fuel : Nat) (acc : List (List Char → Option (List Char))),
      parse_entities_go fuel [brace_open] acc = none := by
  intro fuel
  induction fuel with
  | zero => intro acc; rfl
  | succ n ih => intro acc; exact ih acc

/-- C5: the claim says parse_entities terminates on every input and that a
    block with no closing brace is skipped while parsing continues. On the
    input consisting of a single opening brace the source finds the brace,
    fails to find a closing one, and its continue re-enters the loop with
    pos unchanged, forever: the fuelled model returns none for every fuel,
    so parse_entities does not terminate there and the claim fails on the
    code. -/
theorem claim_C5_unterminated_block_loops_forever :
    ∀ fuel : Nat, parse_entities [brace_open] fuel = none := by
  intro fuel
  exact parse_entities_go_stuck fuel []

/-- C9: point_in_box is symmetric in its two corner arguments: for every
    point p and corners a and b, point_in_box p a b = point_in_box p b a,
    with inclusive bounds and no epsilon in both orientations. -/
theorem claim_C9_point_in_box_symm (p a b : Vec3) :
    point_in_box p a b = point_in_box p b a := by
  have h : ∀ u v : Bool, (u = true ↔ v = true) → u = v := by decide
  apply h
  simp only [point_in_box, Bool.or_eq_true, Bool.and_eq_true,
    decide_eq_true_eq, ge_iff_le]
  tauto

end Lambda
